import Mathlib

/-!
Shallow embedding of the video-upload pipeline of `src/api/videos.ts`.

External collaborators (auth, record store, object store, subprocesses,
multipart parsing) are modelled as oracles supplied in an environment
record; the handler is a pure function from configuration and environment
to a result together with the ordered list of side effects it performs.
JavaScript numbers are modelled as rationals: every finite binary64 value
is an exact rational, each arithmetic operation is followed by `fl`,
round-to-nearest-even binary64 rounding, and `none : Option ℚ` stands for
the non-finite values (NaN, ±Infinity), all of which make every `<`
comparison in the classifier false, exactly as in IEEE semantics.
-/

namespace VideoApp

/-- Aspect-ratio classification produced by `getVideoAspectRatio`. -/
inductive Aspect where
  | landscape
  | portrait
  | other
deriving DecidableEq, Repr

/-- The string the handler interpolates into the storage key for each
classification (the TypeScript function returns these literals). -/
def Aspect.toName : Aspect → String
  | .landscape => "landscape"
  | .portrait => "portrait"
  | .other => "other"

/-- A JSON value extracted from the parsed ffprobe output
(`json.streams?.[0]?.width`). `missing` covers both an absent field and
JSON `null`, which behave identically in the two places the handler uses
the value (truthiness test, numeric coercion from `null` never happens
because `null` is falsy). -/
inductive JsVal where
  | num (q : ℚ)
  | str (s : String)
  | nullv
  | missing
deriving DecidableEq

/-- JavaScript truthiness of the modelled JSON values: `0`, `""`, `null`
and `undefined` are falsy, everything else here is truthy. -/
def JsVal.truthy : JsVal → Bool
  | .num q => decide (q ≠ 0)
  | .str s => decide (s ≠ "")
  | .nullv => false
  | .missing => false

/-- Whitespace trimming on a character list, for the leading/trailing
trim `ToNumber` performs on strings. -/
def jsTrim (cs : List Char) : List Char :=
  ((cs.dropWhile Char.isWhitespace).reverse.dropWhile Char.isWhitespace).reverse

/-- Decimal value of a digit string. -/
def digitsToNat (cs : List Char) : ℕ :=
  cs.foldl (fun n c => n * 10 + (c.toNat - 48)) 0

/-- JavaScript `ToNumber` on strings, restricted to the fragment relevant
here: a whitespace-only string converts to `0`, a string of decimal
digits to the corresponding natural, and any other string (such as
`"abc"`) to NaN, modelled as `none`. -/
def jsStringToNumber (s : String) : Option ℚ :=
  match jsTrim s.data with
  | [] => some 0
  | cs => if cs.all Char.isDigit then some ((digitsToNat cs : ℕ) : ℚ) else none

/-- Numeric coercion applied by the `/` operator. `undefined` coerces to
NaN; the `null` case is unreachable after the truthiness check but is
modelled faithfully (`Number(null) = 0`). -/
def JsVal.toNumber : JsVal → Option ℚ
  | .num q => some q
  | .str s => jsStringToNumber s
  | .nullv => some 0
  | .missing => none

/-- Round a rational to the nearest integer, ties to even — the rounding
step of IEEE-754 round-to-nearest-even. -/
def roundNearestEven (q : ℚ) : ℤ :=
  if q - ⌊q⌋ < 1 / 2 then ⌊q⌋
  else if 1 / 2 < q - ⌊q⌋ then ⌊q⌋ + 1
  else if ⌊q⌋ % 2 = 0 then ⌊q⌋ else ⌊q⌋ + 1

/-- Binary64 rounding of a positive rational: scale by the power of two
that brings the value into `[2^52, 2^53)`, round to nearest-even, scale
back. The exponent is unbounded, so this agrees with IEEE-754 binary64
round-to-nearest on the entire normal range; overflow to infinity and
subnormal loss are not modelled, and no comparison the classifier makes
can distinguish that (a ratio outside the normal range is far from both
targets under either semantics). -/
def flPos (q : ℚ) : ℚ :=
  (roundNearestEven (q * 2 ^ ((52 : ℤ) - Int.log 2 q)) : ℚ) *
    2 ^ (Int.log 2 q - 52)

/-- Binary64 rounding of a rational: the double produced by a JavaScript
arithmetic operation whose exact result is that rational. -/
def fl (q : ℚ) : ℚ :=
  if q = 0 then 0 else if q < 0 then -flPos (-q) else flPos q

/-- JavaScript division on the modelled numbers: the exact quotient is
rounded to binary64; any non-finite operand or a zero divisor yields a
non-finite result (`none`), which the classifier treats the same way it
treats NaN. -/
def jsDiv (a b : Option ℚ) : Option ℚ :=
  match a, b with
  | some x, some y => if y = 0 then none else some (fl (x / y))
  | _, _ => none

/-- `Math.abs` on a finite number. -/
def jsAbs (q : ℚ) : ℚ := if q < 0 then -q else q

/-- `Math.abs(ratio - target) < tol` where the subtraction is a binary64
operation (rounded by `fl`; `Math.abs` and the comparison are exact in
IEEE-754), and a non-finite ratio makes the comparison false, as NaN and
±Infinity do in JavaScript. -/
def absLt (ratio : Option ℚ) (target tol : ℚ) : Bool :=
  match ratio with
  | some r => decide (jsAbs (fl (r - target)) < tol)
  | none => false

/-- The classification chain at the end of `getVideoAspectRatio`: the
targets are the binary64 values of the constant expressions `16 / 9` and
`9 / 16`, and TOLERANCE is the binary64 value of the literal `0.05`. -/
def classifyRatio (ratio : Option ℚ) : Aspect :=
  if absLt ratio (fl (16 / 9)) (fl (1 / 20)) then .landscape
  else if absLt ratio (fl (9 / 16)) (fl (1 / 20)) then .portrait
  else .other

/-- `getVideoAspectRatio`, as a function of its interactions with the
outside world: the ffprobe exit code and the outcome of
`JSON.parse` + field extraction. `parsed = none` models `JSON.parse`
throwing; otherwise the pair holds `streams?.[0]?.width` and
`streams?.[0]?.height`. The source throws when the process exits
non-zero, when parsing throws, or when `!width || !height`; after that it
divides and classifies. -/
def getVideoAspectRatio (exited : Int) (parsed : Option (JsVal × JsVal)) :
    Except String Aspect :=
  if exited ≠ 0 then .error "ffprobe failed with non-zero exit code"
  else
    match parsed with
    | none => .error "Error parsing ffprobe output"
    | some (w, h) =>
      if w.truthy && h.truthy then
        .ok (classifyRatio (jsDiv w.toNumber h.toNumber))
      else .error "Width or height not found in ffprobe output"

/-- Classification as the spec states it (§4.1 / §8), for positive integer
width and height: `ratio = width / height`, landscape when
`|ratio − 16/9| < 0.05`, portrait when `|ratio − 9/16| < 0.05`, otherwise
other. Used only to compare against the code's classifier. -/
def specAspect (width height : ℕ) : Aspect :=
  if |(width : ℚ) / (height : ℚ) - 16 / 9| < 1 / 20 then .landscape
  else if |(width : ℚ) / (height : ℚ) - 9 / 16| < 1 / 20 then .portrait
  else .other

/-- The configuration fields the two handlers read. -/
structure ApiConfig where
  jwtSecret : String
  s3Bucket : String
  s3Region : String
  port : String
  assetsRoot : String
deriving DecidableEq

/-- The persisted video record (fields used by the handlers). -/
structure Video where
  id : String
  userID : String
  videoURL : Option String
  thumbnailURL : Option String
deriving DecidableEq, Repr

/-- A multipart form file: declared size in bytes and declared MIME type. -/
structure FormFile where
  size : ℕ
  type : String
deriving DecidableEq

/-- Errors thrown by the handlers. `unauthorized` covers both a missing
bearer header (`getBearerToken` throws) and an invalid JWT
(`validateJWT` throws); `probeError` is a probe subprocess/parse failure
surfaced as 5xx; `storageError` an S3 failure. -/
inductive HErr where
  | badRequest (msg : String)
  | unauthorized
  | forbidden (msg : String)
  | notFound (msg : String)
  | probeError (msg : String)
  | storageError
deriving DecidableEq, Repr

/-- Externally observable side effects of a request, in program order. -/
inductive Effect where
  | getBearer
  | validateJWT
  | readBody
  | writeFile (path : String)
  | spawnFfprobe (path : String)
  | spawnFfmpeg (input output : String)
  | s3Upload (key path contentType : String)
  | dbUpdate (v : Video)
  | rmFile (path : String)
deriving DecidableEq, Repr

/-- Oracle environment for one `handlerUploadVideo` request: each field is
the outcome of the corresponding external interaction, consulted in
program order. -/
structure UploadEnv where
  videoId : Option String
  bearerToken : Option String
  jwtUser : Option String
  video : Option Video
  formFile : Option FormFile
  probe : Except String Aspect
  uploadOk : Bool

/-- `MAX_UPLOAD_SIZE = 1 << 30` in `handlerUploadVideo`. -/
def MAX_UPLOAD_SIZE : ℕ := 2 ^ 30

/-- `path.join("/tmp", videoId + ".mp4")`. -/
def tempPath (videoId : String) : String := "/tmp/" ++ videoId ++ ".mp4"

/-- The storage key interpolation at line 47 of the source:
`` `${aspectRatio}/${videoId}.mp4` ``. -/
def deriveKey (classification identifier : String) : String :=
  classification ++ "/" ++ identifier ++ ".mp4"

/-- The playback URL interpolation at line 50 of the source. -/
def playbackURL (bucket region key : String) : String :=
  "https://" ++ bucket ++ ".s3." ++ region ++ ".amazonaws.com/" ++ key

/-- `handlerUploadVideo`, statement by statement. The returned pair is
(thrown error or 200-response, ordered list of performed effects). -/
def handlerUploadVideo (cfg : ApiConfig) (env : UploadEnv) :
    Except HErr (ℕ × Video) × List Effect :=
  match env.videoId with
  | none => (.error (.badRequest "Invalid video ID"), [])
  | some videoId =>
    if videoId = "" then (.error (.badRequest "Invalid video ID"), [])
    else
      match env.bearerToken with
      | none => (.error .unauthorized, [Effect.getBearer])
      | some _ =>
        match env.jwtUser with
        | none => (.error .unauthorized, [Effect.getBearer, Effect.validateJWT])
        | some userID =>
          match env.video with
          | none =>
            (.error (.notFound "Couldn't find video"),
             [Effect.getBearer, Effect.validateJWT])
          | some video =>
            if video.userID ≠ userID then
              (.error (.forbidden "Not authorized to update this video"),
               [Effect.getBearer, Effect.validateJWT])
            else
              match env.formFile with
              | none =>
                (.error (.badRequest "Video file missing"),
                 [Effect.getBearer, Effect.validateJWT, Effect.readBody])
              | some file =>
                if file.size > MAX_UPLOAD_SIZE then
                  (.error (.badRequest "File exceeds size limit (1GB)"),
                   [Effect.getBearer, Effect.validateJWT, Effect.readBody])
                else if file.type ≠ "video/mp4" then
                  (.error (.badRequest "Invalid file type, only MP4 is allowed"),
                   [Effect.getBearer, Effect.validateJWT, Effect.readBody])
                else
                  let tmp := tempPath videoId
                  let staged := [Effect.getBearer, Effect.validateJWT,
                    Effect.readBody, Effect.writeFile tmp, Effect.spawnFfprobe tmp]
                  match env.probe with
                  | .error e => (.error (.probeError e), staged)
                  | .ok aspectRatio =>
                    let key := deriveKey aspectRatio.toName videoId
                    let upped := staged ++ [Effect.s3Upload key tmp "video/mp4"]
                    if env.uploadOk = false then (.error .storageError, upped)
                    else
                      let videoURL := playbackURL cfg.s3Bucket cfg.s3Region key
                      let video2 := { video with videoURL := some videoURL }
                      (.ok (200, video2),
                       upped ++ [Effect.dbUpdate video2, Effect.rmFile tmp])

/-- `processVideoForFastStart`: output path is the input path with the
fixed suffix `".processed"`; the ffmpeg subprocess is spawned and a
non-zero exit becomes an error. `exited` is the subprocess oracle.
This function is defined in the source file but never called by
`handlerUploadVideo`. -/
def processVideoForFastStart (inputFilePath : String) (exited : Int) :
    Except String String × List Effect :=
  let outputFilePath := inputFilePath ++ ".processed"
  (if exited ≠ 0 then .error "ffmpeg failed with non-zero exit code"
   else .ok outputFilePath,
   [Effect.spawnFfmpeg inputFilePath outputFilePath])

/-- Whether the handler completed with a 200 response. -/
def resultOk : Except HErr (ℕ × Video) → Bool
  | .ok _ => true
  | .error _ => false

/-- Whether an effect is a transient-file removal. -/
def isRmFile : Effect → Bool
  | .rmFile _ => true
  | _ => false

/-- Whether an error is one of the three authorization-phase failures. -/
def isAuthzErr : HErr → Bool
  | .unauthorized => true
  | .forbidden _ => true
  | .notFound _ => true
  | _ => false

/-- The record as persisted on success: the original record with its
playback URL set to the derived URL. -/
def updatedVideo (cfg : ApiConfig) (video : Video) (key : String) : Video :=
  { video with videoURL := some (playbackURL cfg.s3Bucket cfg.s3Region key) }

/-- Effects performed up to and including reading the request body. -/
def bodyTrace : List Effect :=
  [Effect.getBearer, Effect.validateJWT, Effect.readBody]

/-- Effects performed up to and including staging the upload locally and
spawning the probe. -/
def stagedTrace (vid : String) : List Effect :=
  [Effect.getBearer, Effect.validateJWT, Effect.readBody,
   Effect.writeFile (tempPath vid), Effect.spawnFfprobe (tempPath vid)]

/-- Complete classification of `handlerUploadVideo` outcomes: every run
falls into exactly one of these cases, each pairing the result with the
full, ordered effect trace. -/
theorem handlerUploadVideo_shape (cfg : ApiConfig) (env : UploadEnv) :
    (handlerUploadVideo cfg env =
        (.error (.badRequest "Invalid video ID"), []))
  ∨ ((handlerUploadVideo cfg env).1 = .error .unauthorized
      ∧ ((handlerUploadVideo cfg env).2 = [Effect.getBearer]
        ∨ (handlerUploadVideo cfg env).2 = [Effect.getBearer, Effect.validateJWT]))
  ∨ (∃ m, (handlerUploadVideo cfg env).1 = .error (.notFound m)
      ∧ (handlerUploadVideo cfg env).2 = [Effect.getBearer, Effect.validateJWT])
  ∨ (∃ m, (handlerUploadVideo cfg env).1 = .error (.forbidden m)
      ∧ (handlerUploadVideo cfg env).2 = [Effect.getBearer, Effect.validateJWT])
  ∨ (∃ m, (handlerUploadVideo cfg env).1 = .error (.badRequest m)
      ∧ (handlerUploadVideo cfg env).2 = bodyTrace)
  ∨ (∃ vid e, env.videoId = some vid ∧ env.probe = .error e
      ∧ (handlerUploadVideo cfg env).1 = .error (.probeError e)
      ∧ (handlerUploadVideo cfg env).2 = stagedTrace vid)
  ∨ (∃ vid a, env.videoId = some vid ∧ env.probe = .ok a ∧ env.uploadOk = false
      ∧ (handlerUploadVideo cfg env).1 = .error .storageError
      ∧ (handlerUploadVideo cfg env).2 =
          stagedTrace vid ++
            [Effect.s3Upload (deriveKey a.toName vid) (tempPath vid) "video/mp4"])
  ∨ (∃ vid a video, env.videoId = some vid ∧ env.probe = .ok a
      ∧ env.uploadOk = true ∧ env.video = some video
      ∧ handlerUploadVideo cfg env =
          (.ok (200, updatedVideo cfg video (deriveKey a.toName vid)),
           stagedTrace vid ++
             [Effect.s3Upload (deriveKey a.toName vid) (tempPath vid) "video/mp4",
              Effect.dbUpdate (updatedVideo cfg video (deriveKey a.toName vid)),
              Effect.rmFile (tempPath vid)])) := by
  rcases env with ⟨v, t, u, w, f, pr, up⟩
  unfold handlerUploadVideo
  dsimp only
  rcases v with _ | v
  · exact Or.inl rfl
  by_cases hv : v = ""
  case pos => exact Or.inl (by simp [if_pos hv])
  simp only [if_neg hv]
  rcases t with _ | t
  · exact Or.inr (Or.inl ⟨rfl, Or.inl rfl⟩)
  rcases u with _ | u
  · exact Or.inr (Or.inl ⟨rfl, Or.inr rfl⟩)
  rcases w with _ | w
  · exact Or.inr (Or.inr (Or.inl ⟨_, rfl, rfl⟩))
  by_cases how : w.userID ≠ u
  case pos =>
    simp only [if_pos how]
    exact Or.inr (Or.inr (Or.inr (Or.inl ⟨_, rfl, trivial⟩)))
  simp only [if_neg how]
  rcases f with _ | f
  · exact Or.inr (Or.inr (Or.inr (Or.inr (Or.inl ⟨_, rfl, rfl⟩))))
  by_cases hs : f.size > MAX_UPLOAD_SIZE
  case pos =>
    simp only [if_pos hs]
    exact Or.inr (Or.inr (Or.inr (Or.inr (Or.inl ⟨_, rfl, rfl⟩))))
  simp only [if_neg hs]
  by_cases ht : f.type ≠ "video/mp4"
  case pos =>
    simp only [if_pos ht]
    exact Or.inr (Or.inr (Or.inr (Or.inr (Or.inl ⟨_, rfl, rfl⟩))))
  simp only [if_neg ht]
  rcases pr with e | a
  · refine Or.inr (Or.inr (Or.inr (Or.inr (Or.inr (Or.inl ⟨v, e, rfl, rfl, rfl, ?_⟩)))))
    simp [stagedTrace]
  by_cases hup : up = false
  case pos =>
    simp only [if_pos hup]
    refine Or.inr (Or.inr (Or.inr (Or.inr (Or.inr (Or.inr (Or.inl
      ⟨v, a, rfl, rfl, hup, trivial, ?_⟩))))))
    simp [stagedTrace, updatedVideo]
  case neg =>
    simp only [if_neg hup]
    refine Or.inr (Or.inr (Or.inr (Or.inr (Or.inr (Or.inr (Or.inr
      ⟨v, a, w, rfl, rfl, Bool.not_eq_false up |>.mp hup, rfl, ?_⟩))))))
    simp [stagedTrace, updatedVideo]

/-- A sample configuration for concrete runs. -/
def cfg1 : ApiConfig := ⟨"secret", "bkt", "eu-1", "8091", "assets"⟩

/-- A sample persisted record owned by user `alice`, with no playback URL
yet. -/
def vid1 : Video := ⟨"v1", "alice", none, none⟩

/-- A valid uploaded MP4 file of 100 bytes. -/
def file1 : FormFile := ⟨100, "video/mp4"⟩

/-- An environment in which every external interaction succeeds. -/
def envOk : UploadEnv :=
  ⟨some "v1", some "tok", some "alice", some vid1, some file1, .ok .landscape, true⟩

/-- The record as updated by a successful run under `cfg1`/`envOk`. -/
def vid1Updated : Video :=
  { vid1 with videoURL := some "https://bkt.s3.eu-1.amazonaws.com/landscape/v1.mp4" }

/-- Same as `envOk` but the ffprobe subprocess fails. -/
def envProbeFail : UploadEnv :=
  { envOk with probe := .error "ffprobe failed with non-zero exit code" }

/-- Same as `envOk` but the S3 upload fails. -/
def envStorageFail : UploadEnv := { envOk with uploadOk := false }

/-- Same as `envOk` but the JWT does not validate. -/
def envBadJWT : UploadEnv := { envOk with jwtUser := none }

/-- Same as `envOk` but the videoId path parameter is absent. -/
def envNoId : UploadEnv := { envOk with videoId := none }

/-- C9: a request whose `videoId` path parameter is absent or empty fails
with `BadRequest("Invalid video ID")` and performs no effect at all — in
particular no credential extraction, no body read, no file creation. -/
theorem c9_missing_videoId_rejected_before_auth (cfg : ApiConfig)
    (env : UploadEnv) (h : env.videoId = none ∨ env.videoId = some "") :
    handlerUploadVideo cfg env = (.error (.badRequest "Invalid video ID"), []) := by
  rcases env with ⟨v, t, u, w, f, pr, up⟩
  rcases h with h | h <;> dsimp at h <;> subst h <;> simp [handlerUploadVideo]

/-- C9 witness: concrete run with videoId absent. -/
theorem c9_missing_videoId_rejected_before_auth_witness :
    handlerUploadVideo cfg1 envNoId = (.error (.badRequest "Invalid video ID"), []) :=
  c9_missing_videoId_rejected_before_auth cfg1 envNoId (Or.inl rfl)

/-- C4: whenever the handler fails with Unauthorized, Forbidden or
NotFound, the request body has not been read and no transient file has
been written. -/
theorem c4_auth_failure_before_body_read (cfg : ApiConfig) (env : UploadEnv)
    (e : HErr) (h : (handlerUploadVideo cfg env).1 = .error e)
    (ha : isAuthzErr e = true) :
    Effect.readBody ∉ (handlerUploadVideo cfg env).2 ∧
    ∀ p, Effect.writeFile p ∉ (handlerUploadVideo cfg env).2 := by
  rcases handlerUploadVideo_shape cfg env with hs
    | ⟨hr, ht | ht⟩ | ⟨m, hr, ht⟩ | ⟨m, hr, ht⟩ | ⟨m, hr, ht⟩
    | ⟨vid, e2, hv, hp, hr, ht⟩ | ⟨vid, a, hv, hp, hup, hr, ht⟩
    | ⟨vid, a, video, hv, hp, hup, hw, hs⟩
  · rw [hs] at h ⊢
    simp
  · rw [ht]; simp
  · rw [ht]; simp
  · rw [ht]; simp
  · rw [ht]; simp
  · rw [hr] at h
    simp only [Except.error.injEq] at h
    subst h
    simp [isAuthzErr] at ha
  · rw [hr] at h
    simp only [Except.error.injEq] at h
    subst h
    simp [isAuthzErr] at ha
  · rw [hr] at h
    simp only [Except.error.injEq] at h
    subst h
    simp [isAuthzErr] at ha
  · rw [hs] at h
    simp at h

/-- C4 witness: with an invalid JWT the result is Unauthorized and the
body was never read. -/
theorem c4_auth_failure_before_body_read_witness :
    Effect.readBody ∉ (handlerUploadVideo cfg1 envBadJWT).2 :=
  (c4_auth_failure_before_body_read cfg1 envBadJWT .unauthorized rfl rfl).1

/-- C5: on any failing run no record update is ever issued, and a record
update occurs only in runs where the storage upload succeeded and the
handler returned success. -/
theorem c5_no_record_update_without_upload_success (cfg : ApiConfig)
    (env : UploadEnv) :
    (resultOk (handlerUploadVideo cfg env).1 = false →
      ∀ v, Effect.dbUpdate v ∉ (handlerUploadVideo cfg env).2) ∧
    (∀ v, Effect.dbUpdate v ∈ (handlerUploadVideo cfg env).2 →
      env.uploadOk = true ∧ resultOk (handlerUploadVideo cfg env).1 = true) := by
  rcases handlerUploadVideo_shape cfg env with hs
    | ⟨hr, ht | ht⟩ | ⟨m, hr, ht⟩ | ⟨m, hr, ht⟩ | ⟨m, hr, ht⟩
    | ⟨vid, e2, hv, hp, hr, ht⟩ | ⟨vid, a, hv, hp, hup, hr, ht⟩
    | ⟨vid, a, video, hv, hp, hup, hw, hs⟩
  · rw [hs]; simp
  · rw [ht]; simp
  · rw [ht]; simp
  · rw [ht]; simp
  · rw [ht]; simp
  · rw [ht]; simp [bodyTrace]
  · rw [ht]; simp [stagedTrace]
  · rw [ht]; simp [stagedTrace]
  · rw [hs]
    simp [stagedTrace, hup, resultOk]

/-- C5 witness: when the probe fails, no record update is issued. -/
theorem c5_no_record_update_without_upload_success_witness :
    Effect.dbUpdate vid1 ∉ (handlerUploadVideo cfg1 envProbeFail).2 :=
  (c5_no_record_update_without_upload_success cfg1 envProbeFail).1 rfl vid1

/-- C1 counterexample: a fully successful request uploads the raw staged
file `/tmp/v1.mp4` to storage and never spawns ffmpeg, even though the
remuxer, had it been invoked on the staged file, would have produced the
distinct file `/tmp/v1.mp4.processed`. -/
theorem c1_counterexample_no_remux_on_success :
    handlerUploadVideo cfg1 envOk =
      (.ok (200, vid1Updated),
       [Effect.getBearer, Effect.validateJWT, Effect.readBody,
        Effect.writeFile "/tmp/v1.mp4", Effect.spawnFfprobe "/tmp/v1.mp4",
        Effect.s3Upload "landscape/v1.mp4" "/tmp/v1.mp4" "video/mp4",
        Effect.dbUpdate vid1Updated, Effect.rmFile "/tmp/v1.mp4"])
    ∧ processVideoForFastStart "/tmp/v1.mp4" 0 =
        (.ok "/tmp/v1.mp4.processed",
         [Effect.spawnFfmpeg "/tmp/v1.mp4" "/tmp/v1.mp4.processed"])
    ∧ ("/tmp/v1.mp4" : String) ≠ "/tmp/v1.mp4.processed" :=
  ⟨by rfl, by rfl, by decide⟩

/-- C1 (amended): the fast-start remux step is never invoked — no run of
the handler ever spawns ffmpeg — and every file handed to the storage
uploader is exactly the raw staged file written earlier in the same run,
not a remuxed derivative of it. -/
theorem c1_amended_upload_is_raw_staged_file (cfg : ApiConfig)
    (env : UploadEnv) :
    (∀ i o, Effect.spawnFfmpeg i o ∉ (handlerUploadVideo cfg env).2) ∧
    (∀ k p c, Effect.s3Upload k p c ∈ (handlerUploadVideo cfg env).2 →
      Effect.writeFile p ∈ (handlerUploadVideo cfg env).2) := by
  rcases handlerUploadVideo_shape cfg env with hs
    | ⟨hr, ht | ht⟩ | ⟨m, hr, ht⟩ | ⟨m, hr, ht⟩ | ⟨m, hr, ht⟩
    | ⟨vid, e2, hv, hp, hr, ht⟩ | ⟨vid, a, hv, hp, hup, hr, ht⟩
    | ⟨vid, a, video, hv, hp, hup, hw, hs⟩
  · rw [hs]; simp
  · rw [ht]; simp
  · rw [ht]; simp
  · rw [ht]; simp
  · rw [ht]; simp
  · rw [ht]; simp [bodyTrace]
  · rw [ht]; simp [stagedTrace]
  · rw [ht]
    refine ⟨by simp [stagedTrace], ?_⟩
    intro k p c h
    simp [stagedTrace] at h ⊢
    tauto
  · rw [hs]
    refine ⟨by simp [stagedTrace], ?_⟩
    intro k p c h
    simp [stagedTrace] at h ⊢
    tauto

/-- C1 witness: in the successful concrete run, the uploaded path is one
that was written as the staged file. -/
theorem c1_amended_upload_is_raw_staged_file_witness :
    Effect.writeFile "/tmp/v1.mp4" ∈ (handlerUploadVideo cfg1 envOk).2 :=
  (c1_amended_upload_is_raw_staged_file cfg1 envOk).2
    "landscape/v1.mp4" "/tmp/v1.mp4" "video/mp4" (by decide)

/-- C2 counterexample: when the probe fails after the upload was staged
to `/tmp/v1.mp4`, the handler propagates the error without removing any
file — the transient file leaks. -/
theorem c2_counterexample_no_cleanup_on_probe_failure :
    handlerUploadVideo cfg1 envProbeFail =
      (.error (.probeError "ffprobe failed with non-zero exit code"),
       [Effect.getBearer, Effect.validateJWT, Effect.readBody,
        Effect.writeFile "/tmp/v1.mp4", Effect.spawnFfprobe "/tmp/v1.mp4"])
    ∧ Effect.writeFile "/tmp/v1.mp4" ∈ (handlerUploadVideo cfg1 envProbeFail).2
    ∧ (handlerUploadVideo cfg1 envProbeFail).2.any isRmFile = false :=
  ⟨by rfl, by decide, by rfl⟩

/-- C2 (amended): the staged transient file is removed only on the
success path — a successful run removes `tempPath videoId` — while on
every failing run (probe, storage, or any earlier failure) no file
removal is performed at all, so a file staged before the failure leaks. -/
theorem c2_amended_cleanup_only_on_success (cfg : ApiConfig)
    (env : UploadEnv) (vid : String) :
    (env.videoId = some vid → resultOk (handlerUploadVideo cfg env).1 = true →
      Effect.rmFile (tempPath vid) ∈ (handlerUploadVideo cfg env).2) ∧
    (resultOk (handlerUploadVideo cfg env).1 = false →
      (handlerUploadVideo cfg env).2.any isRmFile = false) := by
  rcases handlerUploadVideo_shape cfg env with hs
    | ⟨hr, ht | ht⟩ | ⟨m, hr, ht⟩ | ⟨m, hr, ht⟩ | ⟨m, hr, ht⟩
    | ⟨vid2, e2, hv, hp, hr, ht⟩ | ⟨vid2, a, hv, hp, hup, hr, ht⟩
    | ⟨vid2, a, video, hv, hp, hup, hw, hs⟩
  · rw [hs]; simp [resultOk]
  · rw [ht, hr]; simp [resultOk, isRmFile]
  · rw [ht, hr]; simp [resultOk, isRmFile]
  · rw [ht, hr]; simp [resultOk, isRmFile]
  · rw [ht, hr]; simp [resultOk, isRmFile]
  · rw [ht, hr]; simp [resultOk, bodyTrace, isRmFile]
  · rw [ht, hr]; simp [resultOk, stagedTrace, isRmFile]
  · rw [ht, hr]; simp [resultOk, stagedTrace, isRmFile]
  · rw [hs]
    constructor
    · intro hv2 _
      rw [hv] at hv2
      simp only [Option.some.injEq] at hv2
      subst hv2
      simp [stagedTrace]
    · intro hfalse
      simp [resultOk] at hfalse

/-- C2 witness: the success run removes the staged file, and the
probe-failure run performs no removal. -/
theorem c2_amended_cleanup_only_on_success_witness :
    Effect.rmFile "/tmp/v1.mp4" ∈ (handlerUploadVideo cfg1 envOk).2
    ∧ (handlerUploadVideo cfg1 envProbeFail).2.any isRmFile = false :=
  ⟨(c2_amended_cleanup_only_on_success cfg1 envOk "v1").1 rfl rfl,
   (c2_amended_cleanup_only_on_success cfg1 envProbeFail "v1").2 rfl⟩


/-- `Math.abs` as modelled agrees with the mathematical absolute value. -/
theorem jsAbs_eq_abs (q : ℚ) : jsAbs q = |q| := by
  unfold jsAbs
  by_cases h : q < 0
  · rw [if_pos h, abs_of_neg h]
  · rw [if_neg h, abs_of_nonneg (le_of_not_lt h)]

/-- C6: with authorization, ownership and a present file field, a file of
exactly 2^30 bytes and type video/mp4 passes validation (the upload gets
staged to disk); a file of 2^30 + 1 bytes is rejected with the size
BadRequest and no file is ever created; an in-size file whose declared
type is not video/mp4 is rejected with the type BadRequest with no file
created and no subprocess spawned. -/
theorem c6_size_and_type_boundary (cfg : ApiConfig) (env : UploadEnv)
    (vid tok userID : String) (video : Video) (file : FormFile)
    (probe : Except String Aspect) (up : Bool)
    (henv : env = ⟨some vid, some tok, some userID, some video,
      some file, probe, up⟩)
    (hvid : vid ≠ "") (hown : video.userID = userID) :
    (file.size = 2 ^ 30 → file.type = "video/mp4" →
      Effect.writeFile (tempPath vid) ∈ (handlerUploadVideo cfg env).2) ∧
    (file.size = 2 ^ 30 + 1 →
      (handlerUploadVideo cfg env).1 =
          .error (.badRequest "File exceeds size limit (1GB)") ∧
      ∀ p, Effect.writeFile p ∉ (handlerUploadVideo cfg env).2) ∧
    (file.size ≤ 2 ^ 30 → file.type ≠ "video/mp4" →
      (handlerUploadVideo cfg env).1 =
          .error (.badRequest "Invalid file type, only MP4 is allowed") ∧
      (∀ p, Effect.writeFile p ∉ (handlerUploadVideo cfg env).2) ∧
      (∀ p, Effect.spawnFfprobe p ∉ (handlerUploadVideo cfg env).2) ∧
      (∀ i o, Effect.spawnFfmpeg i o ∉ (handlerUploadVideo cfg env).2)) := by
  subst henv
  unfold handlerUploadVideo
  dsimp only
  simp only [if_neg hvid, if_neg (not_not_intro hown)]
  refine ⟨?_, ?_, ?_⟩
  · intro hsz hty
    have hns : ¬ file.size > MAX_UPLOAD_SIZE := by
      simp [MAX_UPLOAD_SIZE, hsz]
    simp only [if_neg hns, if_neg (not_not_intro hty)]
    rcases probe with e | a
    · simp
    by_cases hup : up = false
    · simp only [if_pos hup]; simp
    · simp only [if_neg hup]; simp
  · intro hsz
    have hgt : file.size > MAX_UPLOAD_SIZE := by
      simp [MAX_UPLOAD_SIZE, hsz]
    simp only [if_pos hgt]
    simp
  · intro hsz hty
    have hns : ¬ file.size > MAX_UPLOAD_SIZE := by
      simp only [MAX_UPLOAD_SIZE]
      omega
    simp only [if_neg hns, if_pos hty]
    simp

/-- C6 witness: the boundary behavior at concrete sizes. -/
theorem c6_size_and_type_boundary_witness :
    Effect.writeFile "/tmp/v1.mp4" ∈
      (handlerUploadVideo cfg1
        { envOk with formFile := some ⟨2 ^ 30, "video/mp4"⟩ }).2
    ∧ (handlerUploadVideo cfg1
        { envOk with formFile := some ⟨2 ^ 30 + 1, "video/mp4"⟩ }).1 =
        .error (.badRequest "File exceeds size limit (1GB)")
    ∧ (handlerUploadVideo cfg1
        { envOk with formFile := some ⟨100, "video/webm"⟩ }).1 =
        .error (.badRequest "Invalid file type, only MP4 is allowed") :=
  ⟨(c6_size_and_type_boundary cfg1 _ "v1" "tok" "alice" vid1
      ⟨2 ^ 30, "video/mp4"⟩ (.ok .landscape) true rfl (by decide) rfl).1 rfl rfl,
   ((c6_size_and_type_boundary cfg1 _ "v1" "tok" "alice" vid1
      ⟨2 ^ 30 + 1, "video/mp4"⟩ (.ok .landscape) true rfl (by decide) rfl).2.1 rfl).1,
   ((c6_size_and_type_boundary cfg1 _ "v1" "tok" "alice" vid1
      ⟨100, "video/webm"⟩ (.ok .landscape) true rfl (by decide) rfl).2.2
      (by norm_num) (by decide)).1⟩


/-- C3 counterexample: a truthy non-numeric width — the JSON string
"abc" — is not rejected as a parse error: the `!width` check passes, the
division produces NaN, every tolerance comparison is false, and the
classifier returns the classification "other". -/
theorem c3_counterexample_nonnumeric_width_classifies_other :
    getVideoAspectRatio 0 (some (.str "abc", .num 480)) = .ok .other := by rfl

/-- C3 (amended): with a zero exit code and parseable output, extraction
fails exactly when width or height is falsy — and zero, null and missing
are falsy, so those cases do error out as the claim says — but a truthy
non-numeric value (such as a non-empty non-digit string) passes the check
and is classified rather than rejected. -/
theorem c3_amended_error_iff_falsy_dimension (w h : JsVal) :
    ((∃ m, getVideoAspectRatio 0 (some (w, h)) = .error m) ↔
      (w.truthy = false ∨ h.truthy = false))
    ∧ JsVal.truthy (.num 0) = false
    ∧ JsVal.truthy .missing = false
    ∧ JsVal.truthy .nullv = false := by
  refine ⟨?_, by rfl, rfl, rfl⟩
  unfold getVideoAspectRatio
  by_cases hw : w.truthy <;> by_cases hh : h.truthy <;> simp [hw, hh]

/-- C3 witness: a zero width produces a parse error. -/
theorem c3_amended_error_iff_falsy_dimension_witness :
    ∃ m, getVideoAspectRatio 0 (some (.num 0, .num 480)) = .error m :=
  ((c3_amended_error_iff_falsy_dimension (.num 0) (.num 480)).1).mpr
    (Or.inl (by rfl))

/-- C8: the storage key is the pure deterministic interpolation
classification/identifier.mp4, the playback URL the pure interpolation
over bucket, region and key, the spec's example holds, and every key the
handler ever passes to the storage uploader is exactly `deriveKey` of the
probe's classification and the request's identifier. -/
theorem c8_key_and_url_are_pure_derivations (cfg : ApiConfig)
    (env : UploadEnv) :
    (∀ c i, deriveKey c i = c ++ "/" ++ i ++ ".mp4")
    ∧ (∀ b r k, playbackURL b r k =
        "https://" ++ b ++ ".s3." ++ r ++ ".amazonaws.com/" ++ k)
    ∧ deriveKey "landscape" "abc123" = "landscape/abc123.mp4"
    ∧ (∀ k p c, Effect.s3Upload k p c ∈ (handlerUploadVideo cfg env).2 →
        ∃ a vid, env.videoId = some vid ∧ env.probe = .ok a ∧
          k = deriveKey a.toName vid) := by
  refine ⟨fun c i => rfl, fun b r k => rfl, by rfl, ?_⟩
  intro k p c hmem
  rcases handlerUploadVideo_shape cfg env with hs
    | ⟨hr, ht | ht⟩ | ⟨m, hr, ht⟩ | ⟨m, hr, ht⟩ | ⟨m, hr, ht⟩
    | ⟨vid, e2, hv, hp, hr, ht⟩ | ⟨vid, a, hv, hp, hup, hr, ht⟩
    | ⟨vid, a, video, hv, hp, hup, hw, hs⟩
  · rw [hs] at hmem; simp at hmem
  · rw [ht] at hmem; simp at hmem
  · rw [ht] at hmem; simp at hmem
  · rw [ht] at hmem; simp at hmem
  · rw [ht] at hmem; simp at hmem
  · rw [ht] at hmem; simp [bodyTrace] at hmem
  · rw [ht] at hmem
    simp [stagedTrace] at hmem
  · rw [ht] at hmem
    simp [stagedTrace] at hmem
    exact ⟨a, vid, hv, hp, hmem.1⟩
  · rw [hs] at hmem
    simp [stagedTrace] at hmem
    exact ⟨a, vid, hv, hp, hmem.1⟩

/-- C8 witness: the key used by the successful concrete run is the
derived key. -/
theorem c8_key_and_url_are_pure_derivations_witness :
    ∃ a vid, envOk.videoId = some vid ∧ envOk.probe = .ok a ∧
      "landscape/v1.mp4" = deriveKey a.toName vid :=
  (c8_key_and_url_are_pure_derivations cfg1 envOk).2.2.2
    "landscape/v1.mp4" "/tmp/v1.mp4" "video/mp4" (by decide)


/-- The base64url alphabet (RFC 4648 section 5). -/
def b64urlAlphabet : List Char :=
  "ABCDEFGHIJKLMNOPQRSTUVWXYZabcdefghijklmnopqrstuvwxyz0123456789-_".toList

/-- Character at a 6-bit index of the base64url alphabet. -/
def b64urlChar (n : ℕ) : Char := b64urlAlphabet.getD n 'A'

/-- Base64url encoding without padding, as Node's
`buffer.toString("base64url")` produces: bytes are processed in 3-byte
groups, each full group emitting 4 characters and a trailing group of 1
or 2 bytes emitting 2 or 3 characters. -/
def base64urlChars : List (Fin 256) → List Char
  | [] => []
  | [b1] => [b64urlChar (b1.val / 4), b64urlChar (b1.val % 4 * 16)]
  | [b1, b2] =>
      [b64urlChar (b1.val / 4), b64urlChar (b1.val % 4 * 16 + b2.val / 16),
       b64urlChar (b2.val % 16 * 4)]
  | b1 :: b2 :: b3 :: rest =>
      b64urlChar (b1.val / 4) :: b64urlChar (b1.val % 4 * 16 + b2.val / 16) ::
      b64urlChar (b2.val % 16 * 4 + b3.val / 64) :: b64urlChar (b3.val % 64) ::
      base64urlChars rest

/-- `randomBytes(n).toString("base64url")` over the raw byte list. -/
def base64url (bytes : List (Fin 256)) : String :=
  String.mk (base64urlChars bytes)

/-- Output length of base64url encoding. -/
theorem base64urlChars_length (l : List (Fin 256)) :
    (base64urlChars l).length =
      4 * (l.length / 3) +
        (if l.length % 3 = 0 then 0 else l.length % 3 + 1) := by
  induction l using base64urlChars.induct
  · simp [base64urlChars]
  · simp [base64urlChars]
  · simp [base64urlChars]
  · rename_i b1 b2 b3 rest ih
    have hd : (rest.length + 1 + 1 + 1) / 3 = rest.length / 3 + 1 := by omega
    have hm : (rest.length + 1 + 1 + 1) % 3 = rest.length % 3 := by omega
    simp only [base64urlChars, List.length_cons, ih, hd, hm]
    by_cases h0 : rest.length % 3 = 0 <;> simp [h0] <;> omega

/-- 32 random bytes encode to 43 characters. -/
theorem base64url_length_32 (bytes : List (Fin 256))
    (h : bytes.length = 32) : (base64url bytes).length = 43 := by
  show (base64urlChars bytes).length = 43
  rw [base64urlChars_length, h]
  decide

/-- Oracle environment for one `handlerUploadThumbnail` request. -/
structure ThumbEnv where
  videoId : Option String
  bearerToken : Option String
  jwtUser : Option String
  video : Option Video
  formFile : Option FormFile
  randomBytes : List (Fin 256)

/-- `MAX_UPLOAD_SIZE = 10 << 20` in `handlerUploadThumbnail`. -/
def MAX_THUMBNAIL_SIZE : ℕ := 10 * 2 ^ 20

/-- `allowedExtensions` in the source: the accepted thumbnail MIME
types (note these are media types, not filename extensions). -/
def allowedExtensions : List String := ["image/jpeg", "image/png"]

/-- The thumbnail URL interpolation in the source. -/
def thumbURL (cfg : ApiConfig) (fname : String) : String :=
  "http://localhost:" ++ cfg.port ++ "/assets/thumbnails/" ++ fname

/-- The record as persisted by the thumbnail handler: thumbnail URL set
to the localhost assets URL embedding the generated filename. -/
def thumbUpdatedVideo (cfg : ApiConfig) (video : Video) (fname : String) :
    Video :=
  { video with thumbnailURL := some (thumbURL cfg fname) }

/-- `handlerUploadThumbnail`, statement by statement. The `arrayBuffer()`
read cannot fail in the source (it always returns an object, so the
`!fileData` branch is dead) and introduces no effect here; `extension` is
`file.type`, the declared MIME type, and the stored filename is
`randomName + "." + extension`. -/
def handlerUploadThumbnail (cfg : ApiConfig) (env : ThumbEnv) :
    Except HErr ℕ × List Effect :=
  match env.videoId with
  | none => (.error (.badRequest "Invalid video ID"), [])
  | some videoId =>
    if videoId = "" then (.error (.badRequest "Invalid video ID"), [])
    else
      match env.bearerToken with
      | none => (.error .unauthorized, [Effect.getBearer])
      | some _ =>
        match env.jwtUser with
        | none => (.error .unauthorized, [Effect.getBearer, Effect.validateJWT])
        | some userID =>
          match env.video with
          | none =>
            (.error (.notFound "Couldn't find video"),
             [Effect.getBearer, Effect.validateJWT])
          | some video =>
            if video.userID ≠ userID then
              (.error (.forbidden "Not authorized to update this video"),
               [Effect.getBearer, Effect.validateJWT])
            else
              match env.formFile with
              | none => (.error (.badRequest "Thumbnail file missing"), bodyTrace)
              | some file =>
                if file.size > MAX_THUMBNAIL_SIZE then
                  (.error (.badRequest
                    "Thumbnail file exceeds the maximum allowed size of 10MB"),
                   bodyTrace)
                else if file.type = "" then
                  (.error (.badRequest "Missing Content-Type for thumbnail"),
                   bodyTrace)
                else if file.type ∉ allowedExtensions then
                  (.error (.badRequest "Invalid thumbnail file type"), bodyTrace)
                else
                  (.ok 200,
                   bodyTrace ++
                     [Effect.writeFile (cfg.assetsRoot ++ "/thumbnails/" ++
                        (base64url env.randomBytes ++ "." ++ file.type)),
                      Effect.dbUpdate (thumbUpdatedVideo cfg video
                        (base64url env.randomBytes ++ "." ++ file.type))])

/-- C10: every successful thumbnail upload writes the file under a name
consisting of the 43-character base64url encoding of the 32 random
bytes, a dot, and the full declared MIME type — so the part after the
dot contains a slash rather than being a conventional extension — and
persists a thumbnail URL embedding that same filename. -/
theorem c10_thumbnail_filename_is_mime_suffixed (cfg : ApiConfig)
    (env : ThumbEnv) (hlen : env.randomBytes.length = 32)
    (hok : (handlerUploadThumbnail cfg env).1 = .ok 200) :
    ∃ video mt,
      (mt = "image/jpeg" ∨ mt = "image/png")
      ∧ '/' ∈ mt.data
      ∧ (base64url env.randomBytes).length = 43
      ∧ Effect.writeFile (cfg.assetsRoot ++ "/thumbnails/" ++
          (base64url env.randomBytes ++ "." ++ mt)) ∈
            (handlerUploadThumbnail cfg env).2
      ∧ Effect.dbUpdate (thumbUpdatedVideo cfg video
          (base64url env.randomBytes ++ "." ++ mt)) ∈
            (handlerUploadThumbnail cfg env).2 := by
  rcases env with ⟨v, t, u, w, f, rb⟩
  dsimp only at hlen
  unfold handlerUploadThumbnail at hok ⊢
  dsimp only at hok ⊢
  rcases v with _ | v
  · simp at hok
  by_cases hv : v = ""
  case pos => simp [if_pos hv] at hok
  simp only [if_neg hv] at hok ⊢
  rcases t with _ | t
  · simp at hok
  rcases u with _ | u
  · simp at hok
  rcases w with _ | w
  · simp at hok
  by_cases how : w.userID ≠ u
  case pos => simp [if_pos how] at hok
  simp only [if_neg how] at hok ⊢
  rcases f with _ | f
  · simp at hok
  by_cases hs : f.size > MAX_THUMBNAIL_SIZE
  case pos => simp [if_pos hs] at hok
  simp only [if_neg hs] at hok ⊢
  by_cases hty : f.type = ""
  case pos => simp [if_pos hty] at hok
  simp only [if_neg hty] at hok ⊢
  by_cases hal : f.type ∉ allowedExtensions
  case pos => simp [if_pos hal] at hok
  simp only [if_neg hal] at hok ⊢
  have hmem : f.type = "image/jpeg" ∨ f.type = "image/png" := by
    have hin : f.type ∈ allowedExtensions := not_not.mp hal
    simpa [allowedExtensions] using hin
  refine ⟨w, f.type, hmem, ?_, base64url_length_32 rb hlen,
    by simp [bodyTrace], by simp [bodyTrace]⟩
  rcases hmem with hmt | hmt <;> rw [hmt] <;> decide

/-- A thumbnail environment in which every interaction succeeds, with 32
zero random bytes. -/
def thumbEnvOk : ThumbEnv :=
  ⟨some "v1", some "tok", some "alice", some vid1,
   some ⟨100, "image/jpeg"⟩, List.replicate 32 0⟩

/-- C10 witness: the concrete successful thumbnail run. -/
theorem c10_thumbnail_filename_is_mime_suffixed_witness :
    ∃ video mt,
      (mt = "image/jpeg" ∨ mt = "image/png")
      ∧ '/' ∈ mt.data
      ∧ (base64url thumbEnvOk.randomBytes).length = 43
      ∧ Effect.writeFile (cfg1.assetsRoot ++ "/thumbnails/" ++
          (base64url thumbEnvOk.randomBytes ++ "." ++ mt)) ∈
            (handlerUploadThumbnail cfg1 thumbEnvOk).2
      ∧ Effect.dbUpdate (thumbUpdatedVideo cfg1 video
          (base64url thumbEnvOk.randomBytes ++ "." ++ mt)) ∈
            (handlerUploadThumbnail cfg1 thumbEnvOk).2 :=
  c10_thumbnail_filename_is_mime_suffixed cfg1 thumbEnvOk (by rfl) (by rfl)

theorem roundNearestEven_eq_low (q : ℚ) (n : ℤ) (h1 : (n : ℚ) ≤ q)
    (h2 : q < (n : ℚ) + 1 / 2) : roundNearestEven q = n := by
  have hfl : ⌊q⌋ = n := Int.floor_eq_iff.mpr ⟨h1, by linarith⟩
  unfold roundNearestEven
  rw [hfl, if_pos (by linarith)]

theorem roundNearestEven_eq_high (q : ℚ) (n : ℤ) (h1 : (n : ℚ) + 1 / 2 < q)
    (h2 : q < (n : ℚ) + 1) : roundNearestEven q = n + 1 := by
  have hfl : ⌊q⌋ = n := Int.floor_eq_iff.mpr ⟨by linarith, by exact_mod_cast h2⟩
  unfold roundNearestEven
  rw [hfl, if_neg (by linarith), if_pos (by linarith)]

theorem roundNearestEven_intCast (n : ℤ) : roundNearestEven (n : ℚ) = n := by
  unfold roundNearestEven
  rw [Int.floor_intCast, if_pos (by norm_num)]

theorem flPos_eq (q : ℚ) (e : ℤ) (h1 : (2 : ℚ) ^ e ≤ q)
    (h2 : q < (2 : ℚ) ^ (e + 1)) :
    flPos q = (roundNearestEven (q * 2 ^ ((52 : ℤ) - e)) : ℚ) * 2 ^ (e - 52) := by
  have hq : 0 < q := lt_of_lt_of_le (zpow_pos (by norm_num) e) h1
  have hle : e ≤ Int.log 2 q := by
    rw [← Int.zpow_le_iff_le_log (by norm_num) hq]
    exact_mod_cast h1
  have hlt : Int.log 2 q < e + 1 := by
    rw [← Int.lt_zpow_iff_log_lt (by norm_num) hq]
    exact_mod_cast h2
  have hlog : Int.log 2 q = e := by omega
  unfold flPos
  rw [hlog]

theorem fl_pos_eq (q : ℚ) (e : ℤ) (hq : 0 < q) (h1 : (2 : ℚ) ^ e ≤ q)
    (h2 : q < (2 : ℚ) ^ (e + 1)) :
    fl q = (roundNearestEven (q * 2 ^ ((52 : ℤ) - e)) : ℚ) * 2 ^ (e - 52) := by
  unfold fl
  rw [if_neg hq.ne', if_neg (by linarith), flPos_eq q e h1 h2]

theorem fl_zero : fl 0 = 0 := by
  unfold fl
  rw [if_pos rfl]

theorem fl_neg (q : ℚ) : fl (-q) = -fl q := by
  unfold fl
  rcases lt_trichotomy q 0 with h | h | h
  · rw [if_neg (by simpa using h.ne), if_neg (by simpa using not_lt.mpr h.le),
        if_neg h.ne, if_pos h, neg_neg]
  · subst h
    norm_num
  · rw [if_neg (by simpa using h.ne'), if_pos (by simpa using h),
        if_neg h.ne', if_neg (not_lt.mpr h.le), neg_neg]

theorem fl_exact (q : ℚ) (e : ℤ) (m : ℤ) (hq : 0 < q)
    (h1 : (2 : ℚ) ^ e ≤ q) (h2 : q < (2 : ℚ) ^ (e + 1))
    (hm : q * 2 ^ ((52 : ℤ) - e) = (m : ℚ)) : fl q = q := by
  rw [fl_pos_eq q e hq h1 h2, hm, roundNearestEven_intCast, ← hm,
      mul_assoc, ← zpow_add₀ (two_ne_zero (α := ℚ)),
      show (52 : ℤ) - e + (e - 52) = 0 by ring, zpow_zero, mul_one]

theorem fl_16_9 : fl (16 / 9 : ℚ) = 8006399337547548 / 2 ^ 52 := by
  rw [fl_pos_eq (16 / 9 : ℚ) 0 (by norm_num) (by norm_num) (by norm_num)]
  rw [show ((52 : ℤ) - 0) = ((52 : ℕ) : ℤ) by norm_num,
      show ((0 : ℤ) - 52) = -((52 : ℕ) : ℤ) by norm_num,
      zpow_natCast, zpow_neg, zpow_natCast]
  rw [roundNearestEven_eq_low _ 8006399337547548 (by norm_num) (by norm_num)]
  norm_num

theorem fl_311_180 : fl (311 / 180 : ℚ) = 7781219356179024 / 2 ^ 52 := by
  rw [fl_pos_eq (311 / 180 : ℚ) 0 (by norm_num) (by norm_num) (by norm_num)]
  rw [show ((52 : ℤ) - 0) = ((52 : ℕ) : ℤ) by norm_num,
      show ((0 : ℤ) - 52) = -((52 : ℕ) : ℤ) by norm_num,
      zpow_natCast, zpow_neg, zpow_natCast]
  rw [roundNearestEven_eq_high _ 7781219356179023 (by norm_num) (by norm_num)]
  norm_num

theorem fl_1_20 : fl (1 / 20 : ℚ) = 7205759403792794 / 2 ^ 57 := by
  rw [fl_pos_eq (1 / 20 : ℚ) (-5) (by norm_num) (by norm_num) (by norm_num)]
  rw [show ((52 : ℤ) - (-5)) = ((57 : ℕ) : ℤ) by norm_num,
      show ((-5 : ℤ) - 52) = -((57 : ℕ) : ℤ) by norm_num,
      zpow_natCast, zpow_neg, zpow_natCast]
  rw [roundNearestEven_eq_high _ 7205759403792793 (by norm_num) (by norm_num)]
  norm_num

theorem fl_9_16 : fl (9 / 16 : ℚ) = 9 / 16 := by
  refine fl_exact (9 / 16 : ℚ) (-1) 5066549580791808 (by norm_num)
    (by norm_num) (by norm_num) ?_
  rw [show ((52 : ℤ) - (-1)) = ((53 : ℕ) : ℤ) by norm_num, zpow_natCast]
  norm_num

theorem fl_one : fl (1 : ℚ) = 1 := by
  refine fl_exact (1 : ℚ) 0 4503599627370496 (by norm_num)
    (by norm_num) (by norm_num) ?_
  rw [show ((52 : ℤ) - 0) = ((52 : ℕ) : ℤ) by norm_num, zpow_natCast]
  norm_num

theorem fl_d311 : fl (225179981368524 / 2 ^ 52 : ℚ) = 225179981368524 / 2 ^ 52 := by
  refine fl_exact _ (-5) 7205759403792768 (by norm_num)
    (by norm_num) (by norm_num) ?_
  rw [show ((52 : ℤ) - (-5)) = ((57 : ℕ) : ℤ) by norm_num, zpow_natCast]
  norm_num

theorem fl_d916 : fl (5473124547151644 / 2 ^ 52 : ℚ) = 5473124547151644 / 2 ^ 52 := by
  refine fl_exact _ 0 5473124547151644 (by norm_num)
    (by norm_num) (by norm_num) ?_
  rw [show ((52 : ℤ) - 0) = ((52 : ℕ) : ℤ) by norm_num, zpow_natCast]
  norm_num

theorem fl_d1 : fl (3502799710177052 / 2 ^ 52 : ℚ) = 3502799710177052 / 2 ^ 52 := by
  refine fl_exact _ (-1) 7005599420354104 (by norm_num)
    (by norm_num) (by norm_num) ?_
  rw [show ((52 : ℤ) - (-1)) = ((53 : ℕ) : ℤ) by norm_num, zpow_natCast]
  norm_num

theorem fl_7_16 : fl (7 / 16 : ℚ) = 7 / 16 := by
  refine fl_exact (7 / 16 : ℚ) (-2) 7881299347898368 (by norm_num)
    (by norm_num) (by norm_num) ?_
  rw [show ((52 : ℤ) - (-2)) = ((54 : ℕ) : ℤ) by norm_num, zpow_natCast]
  norm_num

theorem getVideoAspectRatio_num (w h : ℚ) (hw : w ≠ 0) (hh : h ≠ 0) :
    getVideoAspectRatio 0 (some (.num w, .num h)) =
      .ok (classifyRatio (some (fl (w / h)))) := by
  simp [getVideoAspectRatio, JsVal.truthy, JsVal.toNumber, jsDiv, hw, hh]

theorem classifyRatio_some (r : ℚ) :
    classifyRatio (some r) =
      if jsAbs (fl (r - fl (16 / 9))) < fl (1 / 20) then .landscape
      else if jsAbs (fl (r - fl (9 / 16))) < fl (1 / 20) then .portrait
      else .other := by
  simp [classifyRatio, absLt]

/-- The spec's classification formula (section 4.1) evaluated in IEEE
binary64, as the amended claim states it: the ratio, the targets `16/9`
and `9/16`, the tolerance `0.05` and each subtraction are binary64
values; `Math.abs` and the comparison are exact operations on doubles. -/
def specAspectFP (width height : ℕ) : Aspect :=
  if |fl (fl ((width : ℚ) / height) - fl (16 / 9))| < fl (1 / 20) then
    .landscape
  else if |fl (fl ((width : ℚ) / height) - fl (9 / 16))| < fl (1 / 20) then
    .portrait
  else .other

/-- C7 counterexample: at 311x180 the exact ratio is exactly 1/20 away
from 16/9, so the claim's formula classifies it other, but the code —
computing in binary64, where the rounded distance falls just below the
rounded tolerance — returns landscape. -/
theorem c7_counterexample_boundary_311x180 :
    getVideoAspectRatio 0 (some (.num 311, .num 180)) = .ok .landscape
    ∧ specAspect 311 180 = .other := by
  constructor
  · rw [getVideoAspectRatio_num 311 180 (by norm_num) (by norm_num),
        classifyRatio_some, fl_311_180, fl_16_9, fl_1_20]
    rw [show (7781219356179024 / 2 ^ 52 - 8006399337547548 / 2 ^ 52 : ℚ) =
        -(225179981368524 / 2 ^ 52) by norm_num]
    rw [fl_neg, fl_d311, jsAbs_eq_abs, abs_neg,
        abs_of_nonneg (by norm_num : (0 : ℚ) ≤ 225179981368524 / 2 ^ 52)]
    rw [if_pos (by norm_num)]
  · unfold specAspect
    rw [if_neg (by rw [abs_sub_lt_iff]; push_cast; norm_num),
        if_neg (by rw [abs_sub_lt_iff]; push_cast; norm_num)]

/-- C7 (amended): for every positive integer width and height the code's
classification equals the spec formula evaluated in IEEE binary64
arithmetic (ratio, targets, tolerance and differences rounded to nearest
double), rather than in exact arithmetic; on the spec's examples the two
agree: 1920x1080 is landscape, 1080x1920 is portrait and 1000x1000 is
other. -/
theorem c7_amended_classification_is_binary64_formula (w h : ℕ)
    (hw : 0 < w) (hh : 0 < h) :
    getVideoAspectRatio 0 (some (.num (w : ℚ), .num (h : ℚ))) =
        .ok (specAspectFP w h)
    ∧ getVideoAspectRatio 0 (some (.num 1920, .num 1080)) = .ok .landscape
    ∧ getVideoAspectRatio 0 (some (.num 1080, .num 1920)) = .ok .portrait
    ∧ getVideoAspectRatio 0 (some (.num 1000, .num 1000)) = .ok .other := by
  refine ⟨?_, ?_, ?_, ?_⟩
  · have hw' : ((w : ℚ)) ≠ 0 := Nat.cast_ne_zero.mpr hw.ne'
    have hh' : ((h : ℚ)) ≠ 0 := Nat.cast_ne_zero.mpr hh.ne'
    rw [getVideoAspectRatio_num _ _ hw' hh', classifyRatio_some]
    unfold specAspectFP
    simp only [jsAbs_eq_abs]
  · rw [getVideoAspectRatio_num 1920 1080 (by norm_num) (by norm_num),
        classifyRatio_some,
        show ((1920 : ℚ) / 1080) = 16 / 9 by norm_num,
        sub_self, fl_zero, fl_1_20]
    simp only [jsAbs_eq_abs, abs_zero]
    rw [if_pos (by norm_num)]
  · rw [getVideoAspectRatio_num 1080 1920 (by norm_num) (by norm_num),
        classifyRatio_some,
        show ((1080 : ℚ) / 1920) = 9 / 16 by norm_num,
        fl_9_16, fl_16_9, fl_1_20]
    simp only [jsAbs_eq_abs]
    rw [show (9 / 16 - 8006399337547548 / 2 ^ 52 : ℚ) =
        -(5473124547151644 / 2 ^ 52) by norm_num,
        fl_neg, fl_d916, abs_neg,
        abs_of_nonneg (by norm_num : (0 : ℚ) ≤ 5473124547151644 / 2 ^ 52)]
    rw [if_neg (by norm_num), sub_self, fl_zero, abs_zero,
        if_pos (by norm_num)]
  · rw [getVideoAspectRatio_num 1000 1000 (by norm_num) (by norm_num),
        classifyRatio_some,
        show ((1000 : ℚ) / 1000) = 1 by norm_num,
        fl_one, fl_16_9, fl_9_16, fl_1_20]
    simp only [jsAbs_eq_abs]
    rw [show (1 - 8006399337547548 / 2 ^ 52 : ℚ) =
        -(3502799710177052 / 2 ^ 52) by norm_num,
        fl_neg, fl_d1, abs_neg,
        abs_of_nonneg (by norm_num : (0 : ℚ) ≤ 3502799710177052 / 2 ^ 52)]
    rw [if_neg (by norm_num),
        show (1 - 9 / 16 : ℚ) = 7 / 16 by norm_num, fl_7_16,
        abs_of_nonneg (by norm_num : (0 : ℚ) ≤ 7 / 16),
        if_neg (by norm_num)]

/-- C7 witness: the binary64 agreement instantiated at 1920x1080. -/
theorem c7_amended_classification_is_binary64_formula_witness :
    getVideoAspectRatio 0
        (some (.num ((1920 : ℕ) : ℚ), .num ((1080 : ℕ) : ℚ))) =
      .ok (specAspectFP 1920 1080) :=
  (c7_amended_classification_is_binary64_formula 1920 1080
    (by decide) (by decide)).1

end VideoApp
